import Mathlib

/-!
Verification of the SSE event-distribution and stock-cache core of the
`dhaniverse` ICP canister (`src/packages/icp-canister/src/sse.rs` and
`src/packages/icp-canister/src/stock_sse.rs`), as a shallow embedding.

Modelling conventions:
* `u64`/`u32` machine integers are embedded as `Nat`; where overflow is
  reachable in principle (the global event-id counter, the cache access
  counter) the increment is taken modulo `2^64` / `2^32` exactly as the
  release-mode wrapping semantics of the source would give.
* The canister's stable storage (`storage.rs`) is a keyed get/set store;
  it is embedded as a record of lookup functions updated pointwise.
* `ic_cdk::api::time()` is passed in explicitly as a `now : Nat` argument
  (nanoseconds), and the external market-data provider
  (`fetch_real_stock_data`, an HTTP outcall) is passed as an oracle
  `String → Option Stock` (`none` = the outcall failed).
* Floating-point market fields of the source `Stock` struct
  (`current_price`, `price_history`, `metrics` — all `f64`-valued) are
  opaque to every piece of caching/event logic verified here; the
  embedded `Stock` keeps the identifying fields and drops the numeric
  payload.
-/

namespace Dhaniverse

/-- Nanosecond cache lifetime: `STOCK_CACHE_DURATION` (45 minutes),
`stock_sse.rs` line 8. -/
def STOCK_CACHE_DURATION : Nat := 2700000000000

/-- `STOCK_RATE_LIMIT` (30 seconds), `stock_sse.rs` line 9. -/
def STOCK_RATE_LIMIT : Nat := 30000000000

/-- `MAX_ACCESS_COUNT_PER_PERIOD`, `stock_sse.rs` line 11. -/
def MAX_ACCESS_COUNT_PER_PERIOD : Nat := 100

/-- `USER_ACTIVITY_WINDOW` (6 hours in nanoseconds), `stock_sse.rs` line 12. -/
def USER_ACTIVITY_WINDOW : Nat := 6 * 60 * 60 * 1000000000

/-- `THIRTY_MINUTES_NANOS`, `stock_sse.rs` line 24. -/
def THIRTY_MINUTES_NANOS : Nat := 30 * 60 * 1000000000

/-- `2^64`, the modulus of the source's `u64` arithmetic. -/
def U64_MOD : Nat := 18446744073709551616

/-- `2^32`, the modulus of the source's `u32` arithmetic. -/
def U32_MOD : Nat := 4294967296

/-- The error type (`error.rs` enum `CanisterError`), restricted to the
variants the verified modules construct.  `sse.rs` constructs
`NotFound(String)` and `RateLimited(String)` and `stock_sse.rs`
constructs `InternalError(String)` (via `CanisterError::internal_error`)
and `NotFound(String)`; the enum declaration in the `error.rs` snapshot
has been trimmed and no longer lists the first two variants, so they are
taken from their call sites. -/
inductive CanisterError where
  | NotFound (msg : String)
  | RateLimited (msg : String)
  | InternalError (msg : String)
deriving DecidableEq

/-- `types.rs` struct `SseEvent` (ids and timestamps are `u64`). -/
structure SseEvent where
  id : Nat
  event_type : String
  data : String
  timestamp : Nat
deriving DecidableEq

/-- `types.rs` enum `SseEventType`. -/
inductive SseEventType where
  | PeerJoined
  | PeerLeft
  | Offer
  | Answer
  | IceCandidate
  | RoomState
deriving DecidableEq

/-- `types.rs` struct `SseConnection`. -/
structure SseConnection where
  connection_id : String
  room_id : String
  peer_id : String
  last_event_id : Option Nat
  connected_at : Nat
  last_activity : Nat
deriving DecidableEq

/-- `types.rs` struct `SseRoom`. -/
structure SseRoom where
  room_id : String
  connections : List String
  event_buffer : List SseEvent
  max_buffer_size : Nat
  created_at : Nat
  last_activity : Nat
deriving DecidableEq

/-- `types.rs` struct `SseConfig`. -/
structure SseConfig where
  max_connections_per_room : Nat
  max_buffer_size_per_room : Nat
  connection_timeout_ms : Nat
  max_event_age_ms : Nat
  cleanup_interval_ms : Nat
deriving DecidableEq

/-- `impl Default for SseConfig`, `types.rs` lines 403-413. -/
def SseConfig.default : SseConfig :=
  { max_connections_per_room := 100
    max_buffer_size_per_room := 1000
    connection_timeout_ms := 5 * 60 * 1000
    max_event_age_ms := 10 * 60 * 1000
    cleanup_interval_ms := 60 * 1000 }

/-- Domain snapshot for one stock (`types.rs` struct `Stock`).  The
`f64`-valued fields of the source struct (`current_price`,
`price_history`, `metrics`) are floating-point data never inspected by
the caching or event logic verified here and are omitted from the
embedding; the identifying fields and the `u64` timestamp are kept. -/
structure Stock where
  id : String
  name : String
  symbol : String
  news : List String
  last_update : Nat
deriving DecidableEq

/-- `types.rs` struct `StockCache` (timestamps `u64`, `access_count : u32`). -/
structure StockCache where
  stock_id : String
  stock_data : Stock
  cached_at : Nat
  expiry_time : Nat
  access_count : Nat
  last_access : Nat
deriving DecidableEq

/-- The canister's stable storage (`storage.rs`) plus the `sse.rs`
process-global event-id counter (`static mut GLOBAL_EVENT_ID: u64`),
embedded as explicit state. -/
structure Storage where
  rooms : String → Option SseRoom
  sse_connections : String → Option SseConnection
  stock_caches : String → Option StockCache
  global_event_id : Nat

/-- `storage::set_sse_room`. -/
def set_sse_room (room_id : String) (room : SseRoom) (st : Storage) : Storage :=
  { st with rooms := fun q => if q = room_id then some room else st.rooms q }

/-- `storage::set_sse_connection`. -/
def set_sse_connection (connection_id : String) (c : SseConnection) (st : Storage) : Storage :=
  { st with sse_connections := fun q => if q = connection_id then some c else st.sse_connections q }

/-- `storage::set_stock_cache`. -/
def set_stock_cache (stock_id : String) (c : StockCache) (st : Storage) : Storage :=
  { st with stock_caches := fun q => if q = stock_id then some c else st.stock_caches q }

/-- A storage with no rooms, no connections, no caches and the event-id
counter at its initial value `0`. -/
def emptyStorage : Storage :=
  { rooms := fun _ => none
    sse_connections := fun _ => none
    stock_caches := fun _ => none
    global_event_id := 0 }

/-! ### Cache Entry Manager (`stock_sse.rs`) -/

/-- `should_refresh_cache`, `stock_sse.rs` lines 170-188: hard expiry is
checked first; only a non-expired entry can be rate-limited. -/
def should_refresh_cache (current_time : Nat) (cache : StockCache) : Bool :=
  if current_time > cache.expiry_time then
    true
  else if cache.access_count > MAX_ACCESS_COUNT_PER_PERIOD then
    if current_time > cache.last_access + STOCK_RATE_LIMIT then true else false
  else
    false

/-- The fetch-and-cache tail of `get_cached_stock_data_async`
(`stock_sse.rs` lines 267-284): call the provider
(`fetch_real_stock_data`, modelled as an oracle), and on success store a
fresh `StockCache` entry with `access_count = 1`. -/
def fetch_and_cache_stock (current_time : Nat) (provider : String → Option Stock)
    (stock_id : String) (st : Storage) : Except CanisterError Stock × Storage :=
  match provider stock_id with
  | none => (.error (.InternalError "HTTP outcall failed"), st)
  | some stock_data =>
      let cache : StockCache :=
        { stock_id := stock_id
          stock_data := stock_data
          cached_at := current_time
          expiry_time := current_time + STOCK_CACHE_DURATION
          access_count := 1
          last_access := current_time }
      (.ok stock_data, set_stock_cache stock_id cache st)

/-- `get_cached_stock_data_async`, `stock_sse.rs` lines 251-285: on a
hit the entry's `access_count` is incremented (u32 wrap) and
`last_access` set to now; otherwise the provider is consulted. -/
def get_cached_stock_data_async (current_time : Nat) (provider : String → Option Stock)
    (stock_id : String) (st : Storage) : Except CanisterError Stock × Storage :=
  match st.stock_caches stock_id with
  | some cache =>
      if should_refresh_cache current_time cache then
        fetch_and_cache_stock current_time provider stock_id st
      else
        let cache' : StockCache :=
          { cache with
              access_count := (cache.access_count + 1) % U32_MOD
              last_access := current_time }
        (.ok cache.stock_data, set_stock_cache stock_id cache' st)
  | none => fetch_and_cache_stock current_time provider stock_id st

/-! ### Room Registry and Broadcast Engine (`sse.rs`) -/

/-- `next_event_id`, `sse.rs` lines 11-16: increment the process-global
`u64` counter (wrapping) and return the new value. -/
def next_event_id (st : Storage) : Nat × Storage :=
  let id := (st.global_event_id + 1) % U64_MOD
  (id, { st with global_event_id := id })

/-- `create_room`, `sse.rs` lines 19-38: idempotent create-if-absent;
the new room takes `SseConfig::default().max_buffer_size_per_room`.
The source always returns `Ok(())`, so the embedding returns the storage. -/
def create_room (now : Nat) (room_id : String) (st : Storage) : Storage :=
  match st.rooms room_id with
  | some _ => st
  | none =>
      set_sse_room room_id
        { room_id := room_id
          connections := []
          event_buffer := []
          max_buffer_size := SseConfig.default.max_buffer_size_per_room
          created_at := now
          last_activity := now } st

/-- `add_connection_to_room`, `sse.rs` lines 41-80.  The source persists
the `SseConnection` record *before* the capacity check, so the pair
returned here carries the final storage alongside the result: on a
capacity rejection the stored connection record remains. -/
def add_connection_to_room (now : Nat) (room_id connection_id peer_id : String)
    (last_event_id : Option Nat) (st : Storage) :
    Except CanisterError Unit × Storage :=
  let st1 := create_room now room_id st
  let connection : SseConnection :=
    { connection_id := connection_id
      room_id := room_id
      peer_id := peer_id
      last_event_id := last_event_id
      connected_at := now
      last_activity := now }
  let st2 := set_sse_connection connection_id connection st1
  match st2.rooms room_id with
  | none => (.error (.NotFound "Room not found"), st2)
  | some room =>
      if room.connections.length ≥ SseConfig.default.max_connections_per_room then
        (.error (.RateLimited "Too many connections in room"), st2)
      else
        let room' := { room with
          connections := room.connections ++ [connection_id]
          last_activity := now }
        (.ok (), set_sse_room room_id room' st2)

/-- The event-type string computed by `broadcast_event` (`sse.rs` line
115): `format!("{:?}", event_type).to_lowercase().replace("_", "-")`.
The Debug names of the variants contain no underscore, so the value is
the lowercased variant name; the table below is that expression
evaluated per variant. -/
def sse_event_type_string : SseEventType → String
  | .PeerJoined => "peerjoined"
  | .PeerLeft => "peerleft"
  | .Offer => "offer"
  | .Answer => "answer"
  | .IceCandidate => "icecandidate"
  | .RoomState => "roomstate"

/-- The `SseEvent` constructed by `broadcast_event` (`sse.rs` lines
113-118); the `serde_json::Value` payload is carried as its serialized
string. -/
def mk_sse_event (id : Nat) (event_type : SseEventType) (data : String)
    (timestamp : Nat) : SseEvent :=
  { id := id
    event_type := sse_event_type_string event_type
    data := data
    timestamp := timestamp }

/-- `broadcast_event`, `sse.rs` lines 104-137: allocate an id, build the
event, fail `NotFound` if the room does not exist (the id stays
consumed), otherwise append to the buffer, evict index 0 if the length
exceeds `max_buffer_size`, update `last_activity`, and return the room's
connection list. -/
def broadcast_event (now : Nat) (room_id : String) (event_type : SseEventType)
    (data : String) (st : Storage) :
    Except CanisterError (List String) × Storage :=
  let p := next_event_id st
  let event := mk_sse_event p.1 event_type data now
  let st1 := p.2
  match st1.rooms room_id with
  | none => (.error (.NotFound "Room not found"), st1)
  | some room =>
      let buf := room.event_buffer ++ [event]
      let buf2 := if buf.length > room.max_buffer_size then buf.eraseIdx 0 else buf
      let room2 := { room with event_buffer := buf2, last_activity := now }
      (.ok room2.connections, set_sse_room room_id room2 st1)

/-- `get_events_since`, `sse.rs` lines 140-162. -/
def get_events_since (room_id : String) (last_event_id : Option Nat)
    (st : Storage) : Except CanisterError (List SseEvent) :=
  match st.rooms room_id with
  | none => .error (.NotFound "Room not found")
  | some room =>
      match last_event_id with
      | some id => .ok (room.event_buffer.filter (fun event => decide (event.id > id)))
      | none => .ok room.event_buffer

/-! ### Global Summary Cache + Refresh Scheduler (`stock_sse.rs`) -/

/-- The `thread_local!` state of `stock_sse.rs` lines 18-22:
`MARKET_SUMMARY_CACHE` (aggregate map plus `cached_at`),
`LAST_USER_ACTIVITY`, and `REFRESH_TIMER` — the latter reduced to
whether a periodic timer is currently installed (the `TimerId` value
itself is not observable in the logic). -/
structure StockSseState where
  market_summary_cache : Option (List (String × Stock) × Nat)
  last_user_activity : Nat
  refresh_timer : Bool
deriving DecidableEq

/-- `update_user_activity`, `stock_sse.rs` lines 27-32. -/
def update_user_activity (now : Nat) (gs : StockSseState) : StockSseState :=
  { gs with last_user_activity := now }

/-- `has_recent_user_activity`, `stock_sse.rs` lines 35-44. -/
def has_recent_user_activity (now : Nat) (gs : StockSseState) : Bool :=
  if gs.last_user_activity = 0 then false
  else decide (now - gs.last_user_activity < USER_ACTIVITY_WINDOW)

/-- The stock-name table of `generate_mock_stock_data`
(`stock_sse.rs` lines 136-148). -/
def mock_stock_name (stock_id : String) : String :=
  if stock_id = "RELIANCE" then "Reliance Industries Ltd"
  else if stock_id = "TCS" then "Tata Consultancy Services"
  else if stock_id = "INFY" then "Infosys Limited"
  else if stock_id = "HDFC" then "HDFC Bank Limited"
  else if stock_id = "ICICI" then "ICICI Bank Limited"
  else if stock_id = "SBI" then "State Bank of India"
  else if stock_id = "BHARTI" then "Bharti Airtel Limited"
  else if stock_id = "ITC" then "ITC Limited"
  else if stock_id = "WIPRO" then "Wipro Limited"
  else if stock_id = "TECHM" then "Tech Mahindra Limited"
  else stock_id

/-- `generate_mock_stock_data`, `stock_sse.rs` lines 47-167, restricted
to the fields the embedding keeps: the price/metric synthesis is
`f64`-valued and opaque here (see the module comment); the identifying
fields, news list shape, and `last_update = current_time` are as in the
source.  The source always returns `Ok`. -/
def generate_mock_stock_data (current_time : Nat) (stock_id : String) :
    Except CanisterError Stock :=
  let stock_name := mock_stock_name stock_id
  .ok
    { id := stock_id
      name := stock_name
      symbol := stock_id
      news :=
        [ stock_name ++ " reports strong quarterly results"
          , "Analysts upgrade " ++ stock_name ++ " target price citing robust fundamentals"
          , stock_name ++ " announces new strategic initiatives for digital transformation" ]
      last_update := current_time }

/-- `get_cached_stock_data` (sync), `stock_sse.rs` lines 356-366: serve
the cache when `should_refresh_cache` is false (without touching the
counters), otherwise fall back to mock data.  No external call is made. -/
def get_cached_stock_data (current_time : Nat) (stock_id : String) (st : Storage) :
    Except CanisterError Stock :=
  match st.stock_caches stock_id with
  | some cache =>
      if should_refresh_cache current_time cache then
        generate_mock_stock_data current_time stock_id
      else
        .ok cache.stock_data
  | none => generate_mock_stock_data current_time stock_id

/-- The `popular_stocks` list of `stock_sse.rs` lines 415-418 / 523-526. -/
def popular_stocks : List String :=
  ["AAPL", "GOOGL", "MSFT", "AMZN", "TSLA", "NVDA", "META", "NFLX", "AMD", "INTC"]

/-- `fetch_all_real_market_data`, `stock_sse.rs` lines 414-448: fetch
every tracked key from the provider, keep the successes (insertion
order), and fail only if the resulting map is empty. -/
def fetch_all_real_market_data (provider : String → Option Stock) :
    Except CanisterError (List (String × Stock)) :=
  let market_data := popular_stocks.foldl (fun acc stock_id =>
    match provider stock_id with
    | some stock_data => acc ++ [(stock_id, stock_data)]
    | none => acc) []
  if market_data.isEmpty then
    .error (.InternalError "Failed to fetch any real stock data")
  else
    .ok market_data

/-- `start_periodic_refresh`, `stock_sse.rs` lines 369-411: clear any
existing timer and install the 30-minute periodic one; in the embedding
this collapses to marking the timer installed. -/
def start_periodic_refresh (gs : StockSseState) : StockSseState :=
  { gs with refresh_timer := true }

/-- The body of the periodic timer callback installed by
`start_periodic_refresh` (`stock_sse.rs` lines 377-405): when recent
user activity exists, run the provider-backed refresh and overwrite the
summary cache on success (cache untouched on failure); otherwise cancel
the timer, transitioning the scheduler to Idle. -/
def periodic_tick (now : Nat) (provider : String → Option Stock)
    (gs : StockSseState) : StockSseState :=
  if has_recent_user_activity now gs then
    match fetch_all_real_market_data provider with
    | .ok market_data => { gs with market_summary_cache := some (market_data, now) }
    | .error _ => gs
  else
    { gs with refresh_timer := false }

/-- `get_market_summary_async`, `stock_sse.rs` lines 457-504: record
activity; serve the global cache when younger than
`STOCK_CACHE_DURATION` (restarting the periodic timer); otherwise fetch
real data, and only on success overwrite the cache wholesale and restart
the timer (on failure the error propagates before the timer restart). -/
def get_market_summary_async (now : Nat) (provider : String → Option Stock)
    (gs : StockSseState) :
    Except CanisterError (List (String × Stock)) × StockSseState :=
  let gs1 := update_user_activity now gs
  let cache_valid : Option (List (String × Stock)) :=
    match gs1.market_summary_cache with
    | some (data, cached_at) =>
        if now - cached_at < STOCK_CACHE_DURATION then some data else none
    | none => none
  match cache_valid with
  | some cached_data => (.ok cached_data, start_periodic_refresh gs1)
  | none =>
      match fetch_all_real_market_data provider with
      | .error e => (.error e, gs1)
      | .ok market_data =>
          let gs2 := { gs1 with market_summary_cache := some (market_data, now) }
          (.ok market_data, start_periodic_refresh gs2)

/-- `get_market_summary` (sync), `stock_sse.rs` lines 508-537: record
activity, then serve the global cache *whenever it exists, with no age
check*; with no cache, build a fallback map from the per-stock sync
cache path.  The function makes no external call (it takes no provider). -/
def get_market_summary (now : Nat) (st : Storage) (gs : StockSseState) :
    Except CanisterError (List (String × Stock)) × StockSseState :=
  let gs1 := update_user_activity now gs
  match gs1.market_summary_cache with
  | some (data, _cached_at) => (.ok data, gs1)
  | none =>
      let market_data := popular_stocks.foldl (fun acc stock_id =>
        match get_cached_stock_data now stock_id st with
        | .ok stock_data => acc ++ [(stock_id, stock_data)]
        | .error _ => acc) []
      (.ok market_data, gs1)

/-! ### Sequenced broadcasts (for the whole-run invariants) -/

/-- A sequence of `broadcast_event` calls (room_id, event_type, payload)
executed in order; the storage they leave behind. -/
def run_broadcasts (now : Nat) (reqs : List (String × SseEventType × String))
    (st : Storage) : Storage :=
  match reqs with
  | [] => st
  | r :: rs => run_broadcasts now rs (broadcast_event now r.1 r.2.1 r.2.2 st).2

/-- The event ids consumed by the same sequence: after each
`broadcast_event` the global counter equals the id it allocated. -/
def run_event_ids (now : Nat) (reqs : List (String × SseEventType × String))
    (st : Storage) : List Nat :=
  match reqs with
  | [] => []
  | r :: rs =>
      let st1 := (broadcast_event now r.1 r.2.1 r.2.2 st).2
      st1.global_event_id :: run_event_ids now rs st1

/-- The events a sequence of broadcasts constructs starting from counter
value `c0` (each step mirrors the `mk_sse_event` in `broadcast_event`). -/
def gen_events (now c0 : Nat) : List (SseEventType × String) → List SseEvent
  | [] => []
  | p :: ps =>
      mk_sse_event ((c0 + 1) % U64_MOD) p.1 p.2 now ::
        gen_events now ((c0 + 1) % U64_MOD) ps

/-- The buffer-maintenance step of `broadcast_event` (`sse.rs` lines
125-130): append, then evict index 0 when the length exceeds `K`. -/
def push_evict (K : Nat) (buf : List SseEvent) (e : SseEvent) : List SseEvent :=
  let b := buf ++ [e]
  if b.length > K then b.eraseIdx 0 else b

/-! ### C1 — rate-limit suppression vs. hard expiry -/

/-- A concrete stock snapshot used by the claim witnesses. -/
def wStock : Stock :=
  { id := "AAPL", name := "Apple Inc.", symbol := "AAPL", news := [], last_update := 0 }

/-- C1 counterexample input: a cache entry that is rate-limited
(`access_count = 101 > 100`, last access 1 ns ago) *and* past its
`expiry_time`. -/
def c1_cache : StockCache :=
  { stock_id := "AAPL", stock_data := wStock, cached_at := 0, expiry_time := 1000
    access_count := 101, last_access := 2000000000000 }

/-- C1 counterexample instant: 1 ns after `c1_cache.last_access`. -/
def c1_now : Nat := 2000000000001

/-- C1 (counterexample): the claim asserts that a rate-limited entry is
served (`should_refresh_cache = false`) *even when `now` is past
`expiry_time`*; on this input — `access_count > MAX_ACCESS_COUNT_PER_PERIOD`,
`now - last_access < STOCK_RATE_LIMIT`, `now > expiry_time` — the code
returns `true` (the expiry check precedes the rate-limit check), so a
read refetches. -/
theorem C1_counterexample :
    c1_cache.access_count > MAX_ACCESS_COUNT_PER_PERIOD ∧
    c1_now - c1_cache.last_access < STOCK_RATE_LIMIT ∧
    c1_now > c1_cache.expiry_time ∧
    should_refresh_cache c1_now c1_cache = true := by
  refine ⟨by decide, by decide, by decide, by decide⟩

/-- C1 (amended): rate-limit suppression holds only below expiry.  For a
cache entry with `access_count > MAX_ACCESS_COUNT_PER_PERIOD`: if `now`
is not past `expiry_time` and `last_access` is less than
`STOCK_RATE_LIMIT` ago, `should_refresh_cache` is `false` and the async
read path serves the cached value unchanged (for any provider); once
`now > last_access + STOCK_RATE_LIMIT`, `should_refresh_cache` is `true`
and the read path performs the fetch-and-cache branch. -/
theorem C1_rate_limit_suppression (now : Nat) (cache : StockCache)
    (hcount : cache.access_count > MAX_ACCESS_COUNT_PER_PERIOD) :
    (now ≤ cache.expiry_time → now - cache.last_access < STOCK_RATE_LIMIT →
      should_refresh_cache now cache = false ∧
      ∀ provider stock_id st, st.stock_caches stock_id = some cache →
        (get_cached_stock_data_async now provider stock_id st).1 = .ok cache.stock_data) ∧
    (now > cache.last_access + STOCK_RATE_LIMIT →
      should_refresh_cache now cache = true ∧
      ∀ provider stock_id st, st.stock_caches stock_id = some cache →
        get_cached_stock_data_async now provider stock_id st =
          fetch_and_cache_stock now provider stock_id st) := by
  constructor
  · intro hexp hrecent
    have hfresh : should_refresh_cache now cache = false := by
      unfold should_refresh_cache
      have h1 : ¬ now > cache.expiry_time := by omega
      have h2 : ¬ now > cache.last_access + STOCK_RATE_LIMIT := by
        unfold STOCK_RATE_LIMIT at hrecent ⊢; omega
      simp [h1, h2, hcount]
    refine ⟨hfresh, ?_⟩
    intro provider stock_id st hcache
    simp [get_cached_stock_data_async, hcache, hfresh]
  · intro hlate
    have hstale : should_refresh_cache now cache = true := by
      unfold should_refresh_cache
      by_cases h1 : now > cache.expiry_time
      · simp [h1]
      · simp [h1, hcount, hlate]
    refine ⟨hstale, ?_⟩
    intro provider stock_id st hcache
    simp [get_cached_stock_data_async, hcache, hstale]

/-- Witness cache for the C1 theorem: rate-limited but far from expiry. -/
def c1w_cache : StockCache :=
  { stock_id := "AAPL", stock_data := wStock, cached_at := 0
    expiry_time := 1000000, access_count := 101, last_access := 0 }

/-- C1 witness: at `now = 5` the rate-limited entry `c1w_cache` is
served (`should_refresh_cache = false`); at
`now = last_access + STOCK_RATE_LIMIT + 1` it refetches. -/
theorem C1_rate_limit_suppression_witness :
    should_refresh_cache 5 c1w_cache = false ∧
    should_refresh_cache 30000000001 c1w_cache = true :=
  ⟨((C1_rate_limit_suppression 5 c1w_cache (by decide)).1 (by decide) (by decide)).1,
   ((C1_rate_limit_suppression 30000000001 c1w_cache (by decide)).2 (by decide)).1⟩

/-! ### C2 — replay correctness -/

/-- C2 (confirmed): for every room and cursor, `get_events_since` with
`some n` returns exactly the buffered events with `id > n` in buffer
order (so it never returns an event with `id ≤ n`), and with `none`
returns the full current buffer. -/
theorem C2_replay_cursor (room_id : String) (cursor : Option Nat) (st : Storage)
    (room : SseRoom) (hroom : st.rooms room_id = some room) :
    (∀ n, cursor = some n →
      get_events_since room_id cursor st =
        .ok (room.event_buffer.filter (fun e => decide (e.id > n))) ∧
      ∀ evs, get_events_since room_id cursor st = .ok evs →
        ∀ e ∈ evs, e.id > n) ∧
    (cursor = none → get_events_since room_id cursor st = .ok room.event_buffer) := by
  constructor
  · rintro n rfl
    have hq : get_events_since room_id (some n) st =
        .ok (room.event_buffer.filter (fun e => decide (e.id > n))) := by
      simp [get_events_since, hroom]
    refine ⟨hq, ?_⟩
    intro evs hevs e he
    rw [hq] at hevs
    injection hevs with hevs
    subst hevs
    exact of_decide_eq_true (List.mem_filter.mp he).2
  · rintro rfl
    simp [get_events_since, hroom]

/-- The C2 witness room: ten buffered events with ids 1..10 (payloads
and timestamps immaterial). -/
def c2_room : SseRoom :=
  { room_id := "r", connections := [], max_buffer_size := 1000
    created_at := 0, last_activity := 0
    event_buffer := (List.range 10).map fun i =>
      { id := i + 1, event_type := "roomstate", data := "d", timestamp := 0 } }

/-- Storage holding only `c2_room` under key `"r"`. -/
def c2_st : Storage := set_sse_room "r" c2_room emptyStorage

/-- C2 witness: on the buffered ids `[1..10]`, `events_since (some 5)`
returns exactly the events with id `> 5` in order and `events_since
none` returns the whole buffer. -/
theorem C2_replay_cursor_witness :
    get_events_since "r" (some 5) c2_st =
      .ok (c2_room.event_buffer.filter (fun e => decide (e.id > 5))) ∧
    get_events_since "r" none c2_st = .ok c2_room.event_buffer :=
  ⟨((C2_replay_cursor "r" (some 5) c2_st c2_room (by decide)).1 5 rfl).1,
   (C2_replay_cursor "r" none c2_st c2_room (by decide)).2 rfl⟩

/-! ### C3 — admission limit -/

/-- C3 (confirmed): admission below `max_connections_per_room` succeeds
and appends the connection id; at (or above) the limit it fails with the
admission-rejection error `RateLimited "Too many connections in room"`
and the room record — in particular its connection count — is left
unchanged; and for an absent room the room is ensured first, so the
first admission succeeds with a singleton connection set (the capacity
check runs after the room is ensured and before insertion). -/
theorem C3_admission_limit :
    (∀ now room_id connection_id peer_id leid st room,
      st.rooms room_id = some room →
      room.connections.length < SseConfig.default.max_connections_per_room →
      (add_connection_to_room now room_id connection_id peer_id leid st).1 = .ok () ∧
      ∀ room', ((add_connection_to_room now room_id connection_id peer_id leid st).2).rooms room_id = some room' →
        room'.connections = room.connections ++ [connection_id] ∧
        room'.connections.length = room.connections.length + 1) ∧
    (∀ now room_id connection_id peer_id leid st room,
      st.rooms room_id = some room →
      room.connections.length ≥ SseConfig.default.max_connections_per_room →
      (add_connection_to_room now room_id connection_id peer_id leid st).1 =
        .error (.RateLimited "Too many connections in room") ∧
      ((add_connection_to_room now room_id connection_id peer_id leid st).2).rooms room_id = some room) ∧
    (∀ now room_id connection_id peer_id leid st,
      st.rooms room_id = none →
      (add_connection_to_room now room_id connection_id peer_id leid st).1 = .ok () ∧
      ∀ room', ((add_connection_to_room now room_id connection_id peer_id leid st).2).rooms room_id = some room' →
        room'.connections = [connection_id]) := by
  refine ⟨?_, ?_, ?_⟩
  · intro now room_id connection_id peer_id leid st room hroom hlt
    have hnot : ¬ room.connections.length ≥ SseConfig.default.max_connections_per_room := by omega
    constructor
    · simp [add_connection_to_room, create_room, set_sse_connection, hroom, hnot]
    · intro room' hroom'
      simp [add_connection_to_room, create_room, set_sse_connection, set_sse_room, hroom, hnot] at hroom'
      simp [← hroom']
  · intro now room_id connection_id peer_id leid st room hroom hge
    constructor
    · simp [add_connection_to_room, create_room, set_sse_connection, hroom, hge]
    · simp [add_connection_to_room, create_room, set_sse_connection, hroom, hge]
  · intro now room_id connection_id peer_id leid st hnone
    have hmax : ¬ (0 ≥ SseConfig.default.max_connections_per_room) := by
      simp [SseConfig.default]
    constructor
    · simp [add_connection_to_room, create_room, set_sse_connection, set_sse_room, hnone, hmax]
    · intro room' hroom'
      simp [add_connection_to_room, create_room, set_sse_connection, set_sse_room, hnone, hmax] at hroom'
      simp [← hroom']

/-- C3 witness room below the limit: one connection. -/
def c3_room1 : SseRoom :=
  { room_id := "r", connections := ["c0"], event_buffer := []
    max_buffer_size := 1000, created_at := 0, last_activity := 0 }

/-- Storage holding `c3_room1`. -/
def c3_st1 : Storage := set_sse_room "r" c3_room1 emptyStorage

/-- C3/C10 witness room exactly at the limit: 100 connections. -/
def c3_full_room : SseRoom :=
  { room_id := "r", connections := List.replicate 100 "c", event_buffer := []
    max_buffer_size := 1000, created_at := 0, last_activity := 0 }

/-- Storage holding `c3_full_room`. -/
def c3_stFull : Storage := set_sse_room "r" c3_full_room emptyStorage

/-- C3 witness: admission below the limit succeeds, admission into the
full room fails with the rejection error and leaves the room record
unchanged, and admission into an unseen room succeeds. -/
theorem C3_admission_limit_witness :
    (add_connection_to_room 7 "r" "x" "p" none c3_st1).1 = .ok () ∧
    (add_connection_to_room 7 "r" "x" "p" none c3_stFull).1 =
      .error (.RateLimited "Too many connections in room") ∧
    ((add_connection_to_room 7 "r" "x" "p" none c3_stFull).2).rooms "r" = some c3_full_room ∧
    (add_connection_to_room 7 "q" "x" "p" none emptyStorage).1 = .ok () :=
  ⟨(C3_admission_limit.1 7 "r" "x" "p" none c3_st1 c3_room1 (by decide) (by decide)).1,
   (C3_admission_limit.2.1 7 "r" "x" "p" none c3_stFull c3_full_room (by decide) (by decide)).1,
   (C3_admission_limit.2.1 7 "r" "x" "p" none c3_stFull c3_full_room (by decide) (by decide)).2,
   (C3_admission_limit.2.2 7 "q" "x" "p" none emptyStorage (by decide)).1⟩

/-! ### C10 — rejected admission leaves an orphaned connection record -/

/-- C10 (confirmed): `add_connection_to_room` persists the
`SseConnection` record *before* the capacity check; on a capacity
rejection the record stays in storage, the rooms map is completely
unchanged, and — provided no room referenced the connection id before —
the stored record is referenced by no room's connection set. -/
theorem C10_orphaned_connection (now : Nat) (room_id connection_id peer_id : String)
    (leid : Option Nat) (st : Storage) (room : SseRoom)
    (hroom : st.rooms room_id = some room)
    (hfull : room.connections.length ≥ SseConfig.default.max_connections_per_room)
    (horphan : ∀ rid r, st.rooms rid = some r → connection_id ∉ r.connections) :
    (add_connection_to_room now room_id connection_id peer_id leid st).1 =
      .error (.RateLimited "Too many connections in room") ∧
    ((add_connection_to_room now room_id connection_id peer_id leid st).2).sse_connections connection_id =
      some { connection_id := connection_id, room_id := room_id, peer_id := peer_id
             last_event_id := leid, connected_at := now, last_activity := now } ∧
    ((add_connection_to_room now room_id connection_id peer_id leid st).2).rooms = st.rooms ∧
    (∀ rid r, ((add_connection_to_room now room_id connection_id peer_id leid st).2).rooms rid = some r →
      connection_id ∉ r.connections) := by
  have hrooms : ((add_connection_to_room now room_id connection_id peer_id leid st).2).rooms = st.rooms := by
    simp [add_connection_to_room, create_room, set_sse_connection, hroom, hfull]
  refine ⟨?_, ?_, hrooms, ?_⟩
  · simp [add_connection_to_room, create_room, set_sse_connection, hroom, hfull]
  · simp [add_connection_to_room, create_room, set_sse_connection, hroom, hfull]
  · intro rid r hr
    rw [hrooms] at hr
    exact horphan rid r hr

/-- C10 witness: rejecting `"x"` from the full room leaves the record
for `"x"` in connection storage while no room references `"x"`. -/
theorem C10_orphaned_connection_witness :
    (add_connection_to_room 7 "r" "x" "p" none c3_stFull).1 =
      .error (.RateLimited "Too many connections in room") ∧
    ((add_connection_to_room 7 "r" "x" "p" none c3_stFull).2).sse_connections "x" =
      some { connection_id := "x", room_id := "r", peer_id := "p"
             last_event_id := none, connected_at := 7, last_activity := 7 } ∧
    ((add_connection_to_room 7 "r" "x" "p" none c3_stFull).2).rooms = c3_stFull.rooms := by
  have h := C10_orphaned_connection 7 "r" "x" "p" none c3_stFull c3_full_room
    (by decide) (by decide)
    (by
      intro rid r hr
      by_cases hq : rid = "r"
      · subst hq
        have : r = c3_full_room := by
          simpa [c3_stFull, set_sse_room, emptyStorage] using hr.symm
        subst this
        decide
      · simp [c3_stFull, set_sse_room, emptyStorage, hq] at hr)
  exact ⟨h.1, h.2.1, h.2.2.1⟩

/-! ### C4 — buffer bound and oldest-first eviction -/

/-- Closed form of one buffer-maintenance step: append then evict index
0 when over `K` is dropping the first `buf.length + 1 - K` elements. -/
theorem push_evict_eq (K : Nat) (buf : List SseEvent) (e : SseEvent)
    (hb : buf.length ≤ K) :
    push_evict K buf e = (buf ++ [e]).drop (buf.length + 1 - K) := by
  unfold push_evict
  by_cases h : (buf ++ [e]).length > K
  · have h1 : buf.length + 1 - K = 1 := by
      simp only [List.length_append, List.length_singleton] at h; omega
    simp only [if_pos h, h1, List.eraseIdx_zero, List.drop_one]
  · have h0 : buf.length + 1 - K = 0 := by
      simp only [List.length_append, List.length_singleton] at h; omega
    simp only [if_neg h, h0, List.drop_zero]

/-- One step keeps the buffer within the bound: its length is
`min (buf.length + 1) K`. -/
theorem push_evict_length (K : Nat) (buf : List SseEvent) (e : SseEvent)
    (hb : buf.length ≤ K) :
    (push_evict K buf e).length = min (buf.length + 1) K := by
  rw [push_evict_eq K buf e hb, List.length_drop]
  simp only [List.length_append, List.length_singleton]
  omega

/-- Closed form of folding the buffer-maintenance step over a list of
events: the result is the suffix of `buf ++ evs` that fits in `K`. -/
theorem foldl_push_evict (K : Nat) (evs : List SseEvent) :
    ∀ buf : List SseEvent, buf.length ≤ K →
      List.foldl (push_evict K) buf evs =
        (buf ++ evs).drop (buf.length + evs.length - K) := by
  induction evs with
  | nil =>
      intro buf hb
      have h0 : buf.length + ([] : List SseEvent).length - K = 0 := by
        simp only [List.length_nil]; omega
      rw [List.foldl_nil, List.append_nil, h0, List.drop_zero]
  | cons e evs ih =>
      intro buf hb
      have hb' : (push_evict K buf e).length ≤ K := by
        rw [push_evict_length K buf e hb]; omega
      have step : List.foldl (push_evict K) buf (e :: evs) =
          List.foldl (push_evict K) (push_evict K buf e) evs := rfl
      rw [step, ih (push_evict K buf e) hb', push_evict_eq K buf e hb]
      have hle : buf.length + 1 - K ≤ (buf ++ [e]).length := by
        simp only [List.length_append, List.length_singleton]; omega
      rw [List.length_drop, ← List.drop_append_of_le_length hle, List.drop_drop]
      have harr : (buf ++ [e]) ++ evs = buf ++ e :: evs := by
        simp
      rw [harr]
      congr 1
      simp only [List.length_append, List.length_singleton, List.length_cons,
        List.length_nil]
      omega

/-- Effect of `broadcast_event` on storage when the room exists: the
target room receives the new event through `push_evict` and a fresh
`last_activity`, all other rooms are untouched, and the counter
advances. -/
theorem broadcast_event_room (now : Nat) (room_id : String) (t : SseEventType)
    (d : String) (st : Storage) (room : SseRoom)
    (h : st.rooms room_id = some room) :
    (broadcast_event now room_id t d st).2.rooms =
      (fun q => if q = room_id then
        some { room with
          event_buffer := push_evict room.max_buffer_size room.event_buffer
            (mk_sse_event ((st.global_event_id + 1) % U64_MOD) t d now)
          last_activity := now }
        else st.rooms q) ∧
    (broadcast_event now room_id t d st).2.global_event_id =
      (st.global_event_id + 1) % U64_MOD := by
  constructor
  · simp [broadcast_event, next_event_id, h, set_sse_room, push_evict]
  · simp [broadcast_event, next_event_id, h, set_sse_room]

/-- Effect of `broadcast_event` when the room does not exist: the error
is returned, no room is created (the rooms map is unchanged), and the
event id is still consumed. -/
theorem broadcast_event_no_room (now : Nat) (room_id : String) (t : SseEventType)
    (d : String) (st : Storage) (h : st.rooms room_id = none) :
    (broadcast_event now room_id t d st).1 = .error (.NotFound "Room not found") ∧
    (broadcast_event now room_id t d st).2.rooms = st.rooms ∧
    (broadcast_event now room_id t d st).2.global_event_id =
      (st.global_event_id + 1) % U64_MOD := by
  refine ⟨?_, ?_, ?_⟩ <;> simp [broadcast_event, next_event_id, h]

/-- `broadcast_event` advances the counter whether or not the room
exists. -/
theorem broadcast_event_counter (now : Nat) (room_id : String) (t : SseEventType)
    (d : String) (st : Storage) :
    (broadcast_event now room_id t d st).2.global_event_id =
      (st.global_event_id + 1) % U64_MOD := by
  cases h : st.rooms room_id with
  | none => exact (broadcast_event_no_room now room_id t d st h).2.2
  | some room => exact (broadcast_event_room now room_id t d st room h).2

/-- `gen_events` produces one event per request. -/
theorem gen_events_length (now : Nat) :
    ∀ (ps : List (SseEventType × String)) (c : Nat),
      (gen_events now c ps).length = ps.length := by
  intro ps
  induction ps with
  | nil => intro c; rfl
  | cons p ps ih => intro c; simp [gen_events, ih]

/-- Running a sequence of broadcasts into one existing room folds
`push_evict` over the generated events. -/
theorem run_broadcasts_room (now : Nat) (room_id : String)
    (payloads : List (SseEventType × String)) :
    ∀ st room, st.rooms room_id = some room →
      ∀ room',
        (run_broadcasts now (payloads.map fun p => (room_id, p.1, p.2)) st).rooms room_id = some room' →
        room'.event_buffer = List.foldl (push_evict room.max_buffer_size)
          room.event_buffer (gen_events now st.global_event_id payloads) ∧
        room'.max_buffer_size = room.max_buffer_size := by
  induction payloads with
  | nil =>
      intro st room h room' h'
      have : run_broadcasts now
          (([] : List (SseEventType × String)).map fun p => (room_id, p.1, p.2)) st = st := rfl
      rw [this, h] at h'
      injection h' with h'
      subst h'
      exact ⟨rfl, rfl⟩
  | cons p ps ih =>
      intro st room h room' h'
      obtain ⟨hrooms, hcounter⟩ := broadcast_event_room now room_id p.1 p.2 st room h
      have h1 : ((broadcast_event now room_id p.1 p.2 st).2).rooms room_id =
          some { room with
            event_buffer := push_evict room.max_buffer_size room.event_buffer
              (mk_sse_event ((st.global_event_id + 1) % U64_MOD) p.1 p.2 now)
            last_activity := now } := by
        rw [hrooms]; simp
      have hrun : run_broadcasts now ((p :: ps).map fun q => (room_id, q.1, q.2)) st =
          run_broadcasts now (ps.map fun q => (room_id, q.1, q.2))
            (broadcast_event now room_id p.1 p.2 st).2 := rfl
      rw [hrun] at h'
      obtain ⟨hbuf, hmax⟩ := ih (broadcast_event now room_id p.1 p.2 st).2 _ h1 room' h'
      rw [hcounter] at hbuf
      exact ⟨hbuf, hmax⟩

/-- C4 (confirmed): a broadcast preserves the storage-wide invariant
`event_buffer.length ≤ max_buffer_size` (oldest entry evicted first);
and after `N > K` broadcasts into a room with `max_buffer_size = K` and
an empty buffer, the buffer has length exactly `K` and holds precisely
the `K` most recently broadcast events (the final `K` of the generated
event sequence). -/
theorem C4_buffer_bound :
    (∀ now room_id t d st,
      (∀ rid room, st.rooms rid = some room →
        room.event_buffer.length ≤ room.max_buffer_size) →
      ∀ rid room', ((broadcast_event now room_id t d st).2).rooms rid = some room' →
        room'.event_buffer.length ≤ room'.max_buffer_size) ∧
    (∀ now room_id st room (payloads : List (SseEventType × String)) K,
      st.rooms room_id = some room → room.event_buffer = [] →
      room.max_buffer_size = K → payloads.length > K →
      ∀ room',
        (run_broadcasts now (payloads.map fun p => (room_id, p.1, p.2)) st).rooms room_id = some room' →
        room'.event_buffer.length = K ∧
        room'.event_buffer =
          (gen_events now st.global_event_id payloads).drop (payloads.length - K)) := by
  constructor
  · intro now room_id t d st hinv rid room' h'
    cases h : st.rooms room_id with
    | none =>
        rw [(broadcast_event_no_room now room_id t d st h).2.1] at h'
        exact hinv rid room' h'
    | some room =>
        rw [(broadcast_event_room now room_id t d st room h).1] at h'
        by_cases hq : rid = room_id
        · subst hq
          simp only [if_pos rfl] at h'
          injection h' with h'
          subst h'
          have hb := hinv rid room h
          simp only []
          rw [push_evict_length room.max_buffer_size room.event_buffer _ hb]
          omega
        · simp only [if_neg hq] at h'
          exact hinv rid room' h'
  · intro now room_id st room payloads K hroom hempty hK hN room' h'
    obtain ⟨hbuf, hmax⟩ := run_broadcasts_room now room_id payloads st room hroom room' h'
    rw [hempty, hK] at hbuf
    rw [foldl_push_evict K _ [] (by simp)] at hbuf
    simp only [List.nil_append, List.length_nil, Nat.zero_add] at hbuf
    rw [gen_events_length] at hbuf
    refine ⟨?_, hbuf⟩
    rw [hbuf, List.length_drop, gen_events_length]
    omega

/-- C4 witness room: empty buffer, `max_buffer_size = 2`. -/
def c4_room0 : SseRoom :=
  { room_id := "r", connections := [], event_buffer := []
    max_buffer_size := 2, created_at := 1, last_activity := 1 }

/-- Storage holding `c4_room0`. -/
def c4_st : Storage := set_sse_room "r" c4_room0 emptyStorage

/-- C4 witness requests: three broadcasts into the same room. -/
def c4_payloads : List (SseEventType × String) :=
  [(.RoomState, "a"), (.RoomState, "b"), (.RoomState, "c")]

/-- The room after the first C4 witness broadcast (buffer holds the
event with id 1). -/
def c4_room1 : SseRoom :=
  { room_id := "r", connections := []
    event_buffer := [{ id := 1, event_type := "roomstate", data := "a", timestamp := 7 }]
    max_buffer_size := 2, created_at := 1, last_activity := 7 }

/-- The room after all three C4 witness broadcasts: events 2 and 3
retained, event 1 evicted. -/
def c4_roomF : SseRoom :=
  { room_id := "r", connections := []
    event_buffer :=
      [{ id := 2, event_type := "roomstate", data := "b", timestamp := 7 },
       { id := 3, event_type := "roomstate", data := "c", timestamp := 7 }]
    max_buffer_size := 2, created_at := 1, last_activity := 7 }

/-- C4 witness: one broadcast keeps the bound, and after 3 broadcasts
with `K = 2` the buffer is the last two generated events. -/
theorem C4_buffer_bound_witness :
    c4_room1.event_buffer.length ≤ c4_room1.max_buffer_size ∧
    c4_roomF.event_buffer.length = 2 ∧
    c4_roomF.event_buffer =
      (gen_events 7 c4_st.global_event_id c4_payloads).drop (c4_payloads.length - 2) := by
  have hinv : ∀ rid room, c4_st.rooms rid = some room →
      room.event_buffer.length ≤ room.max_buffer_size := by
    intro rid room hr
    by_cases hq : rid = "r"
    · subst hq
      have : room = c4_room0 := by
        simpa [c4_st, set_sse_room, emptyStorage] using hr.symm
      subst this
      decide
    · simp [c4_st, set_sse_room, emptyStorage, hq] at hr
  refine ⟨C4_buffer_bound.1 7 "r" .RoomState "a" c4_st hinv "r" c4_room1 (by decide),
    C4_buffer_bound.2 7 "r" c4_st c4_room0 c4_payloads 2
      (by decide) (by decide) (by decide) (by decide) c4_roomF (by decide)⟩

/-! ### C5 — monotonic event ids -/

/-- `[c+1, c+2, ..., c+n]`: the ids a non-wrapping counter at `c` hands
out over `n` allocations. -/
def idsFrom (c : Nat) : Nat → List Nat
  | 0 => []
  | n + 1 => (c + 1) :: idsFrom (c + 1) n

/-- Every id handed out lies in `(c, c + n]`. -/
theorem idsFrom_mem : ∀ (n c x : Nat), x ∈ idsFrom c n → c < x ∧ x ≤ c + n := by
  intro n
  induction n with
  | zero => intro c x hx; cases hx
  | succ n ih =>
      intro c x hx
      rcases List.mem_cons.mp hx with h | h
      · omega
      · have := ih (c + 1) x h
        omega

/-- The handed-out ids are strictly increasing. -/
theorem idsFrom_pairwise : ∀ (n c : Nat), (idsFrom c n).Pairwise (· < ·) := by
  intro n
  induction n with
  | zero => intro c; exact List.Pairwise.nil
  | succ n ih =>
      intro c
      refine List.Pairwise.cons ?_ (ih (c + 1))
      intro x hx
      have := idsFrom_mem n (c + 1) x hx
      omega

/-- As long as the `u64` counter cannot wrap during the run, the ids a
sequence of broadcasts consumes are exactly `idsFrom` of the starting
counter. -/
theorem run_event_ids_eq (now : Nat) :
    ∀ (reqs : List (String × SseEventType × String)) (st : Storage),
      st.global_event_id + reqs.length < U64_MOD →
      run_event_ids now reqs st = idsFrom st.global_event_id reqs.length := by
  intro reqs
  induction reqs with
  | nil => intro st h; rfl
  | cons r rs ih =>
      intro st h
      have hlen : (r :: rs).length = rs.length + 1 := rfl
      rw [hlen] at h
      have hmod : (st.global_event_id + 1) % U64_MOD = st.global_event_id + 1 :=
        Nat.mod_eq_of_lt (by omega)
      have hc := broadcast_event_counter now r.1 r.2.1 r.2.2 st
      rw [hmod] at hc
      have hih := ih (broadcast_event now r.1 r.2.1 r.2.2 st).2 (by rw [hc]; omega)
      have hstep : run_event_ids now (r :: rs) st =
          (broadcast_event now r.1 r.2.1 r.2.2 st).2.global_event_id ::
            run_event_ids now rs (broadcast_event now r.1 r.2.1 r.2.2 st).2 := rfl
      rw [hstep, hc, hih, hc, hlen]
      rfl

/-- C5 (confirmed): for any sequence of broadcasts across any rooms,
provided the `u64` counter cannot wrap during the run, the consumed
event ids are strictly increasing (hence pairwise distinct), each id is
strictly greater than the counter value before the run, and from the
initial counter value `0` the first id handed out is `1`. -/
theorem C5_monotonic_event_ids (now : Nat)
    (reqs : List (String × SseEventType × String)) (st : Storage)
    (hof : st.global_event_id + reqs.length < U64_MOD) :
    (run_event_ids now reqs st).Pairwise (· < ·) ∧
    (run_event_ids now reqs st).Nodup ∧
    (∀ x ∈ run_event_ids now reqs st, st.global_event_id < x) ∧
    (st.global_event_id = 0 → reqs ≠ [] →
      (run_event_ids now reqs st).head? = some 1) := by
  rw [run_event_ids_eq now reqs st hof]
  have hpw := idsFrom_pairwise reqs.length st.global_event_id
  refine ⟨hpw, hpw.imp (fun h => Nat.ne_of_lt h), ?_, ?_⟩
  · intro x hx
    exact (idsFrom_mem reqs.length st.global_event_id x hx).1
  · intro h0 hne
    cases reqs with
    | nil => exact absurd rfl hne
    | cons r rs => rw [h0]; rfl

/-- C5 witness requests: two broadcasts to two different rooms. -/
def c5_reqs : List (String × SseEventType × String) :=
  [("r", .RoomState, "a"), ("q", .PeerJoined, "b")]

/-- C5 witness: from the fresh counter, the two consumed ids are
strictly increasing, distinct, and start at 1. -/
theorem C5_monotonic_event_ids_witness :
    (run_event_ids 0 c5_reqs emptyStorage).Pairwise (· < ·) ∧
    (run_event_ids 0 c5_reqs emptyStorage).Nodup ∧
    (run_event_ids 0 c5_reqs emptyStorage).head? = some 1 :=
  ⟨(C5_monotonic_event_ids 0 c5_reqs emptyStorage (by decide)).1,
   (C5_monotonic_event_ids 0 c5_reqs emptyStorage (by decide)).2.1,
   (C5_monotonic_event_ids 0 c5_reqs emptyStorage (by decide)).2.2.2 rfl (by decide)⟩

/-! ### C6 — the sync summary path ignores the cache age -/

/-- C6 counterexample cache content. -/
def c6_data : List (String × Stock) := [("AAPL", wStock)]

/-- C6 counterexample state: summary cached at time 0. -/
def c6_gs : StockSseState :=
  { market_summary_cache := some (c6_data, 0), last_user_activity := 0
    refresh_timer := false }

/-- C6 counterexample instant: ten full cache lifetimes after `cached_at`. -/
def c6_now : Nat := 27000000000000

/-- C6 (counterexample): the claim asserts the sync path serves the
cached aggregate *only when* `now - cached_at < SUMMARY_TTL`; here the
cache is long expired (`now - cached_at ≥ STOCK_CACHE_DURATION`) and
`get_market_summary` still returns it — the sync path has no age check. -/
theorem C6_counterexample :
    ¬ (c6_now - 0 < STOCK_CACHE_DURATION) ∧
    c6_gs.market_summary_cache = some (c6_data, 0) ∧
    (get_market_summary c6_now emptyStorage c6_gs).1 = .ok c6_data := by
  refine ⟨by decide, rfl, rfl⟩

/-- C6 (amended): the sync summary path performs no external calls (it
consults only the global cache and the local stock caches), but it
serves the globally cached aggregate *whenever one exists, regardless of
its age*; only when no cached value exists at all does it fall back —
and then to locally generated data (never an error), not to the fetch
path. -/
theorem C6_sync_summary (now : Nat) (st : Storage) (gs : StockSseState) :
    (∀ data cached_at, gs.market_summary_cache = some (data, cached_at) →
      get_market_summary now st gs = (.ok data, update_user_activity now gs)) ∧
    (gs.market_summary_cache = none →
      get_market_summary now st gs =
        (.ok (popular_stocks.foldl (fun acc stock_id =>
            match get_cached_stock_data now stock_id st with
            | .ok stock_data => acc ++ [(stock_id, stock_data)]
            | .error _ => acc) []),
         update_user_activity now gs)) := by
  constructor
  · intro data cached_at h
    simp [get_market_summary, update_user_activity, h]
  · intro h
    simp [get_market_summary, update_user_activity, h]

/-- C6 witness: with a cached value present (whatever its age), the sync
path returns it and records activity. -/
theorem C6_sync_summary_witness :
    get_market_summary 5 emptyStorage c6_gs = (.ok c6_data, update_user_activity 5 c6_gs) :=
  (C6_sync_summary 5 emptyStorage c6_gs).1 c6_data 0 rfl

/-! ### C8 — broadcasting to an unknown room -/

/-- C8 (counterexample): the claim asserts broadcasting to an unseen
`room_id` creates the room and appends the event; the code instead
fails with `NotFound` and creates nothing — the first event to an
unseen room is dropped (with an error, not silently). -/
theorem C8_counterexample :
    emptyStorage.rooms "room1" = none ∧
    (broadcast_event 0 "room1" SseEventType.RoomState "payload" emptyStorage).1 =
      .error (.NotFound "Room not found") ∧
    ((broadcast_event 0 "room1" SseEventType.RoomState "payload" emptyStorage).2).rooms "room1" =
      none := by
  refine ⟨rfl, rfl, rfl⟩

/-- C8 (amended): broadcasting to a `room_id` with no room fails with
`NotFound "Room not found"` rather than creating the room: the rooms map
is unchanged (so the event is appended to no buffer and is lost), while
the event id is still consumed.  Rooms are created only by
`create_room`, `add_connection_to_room` and the subscribe path. -/
theorem C8_broadcast_unknown_room (now : Nat) (room_id : String)
    (t : SseEventType) (d : String) (st : Storage)
    (h : st.rooms room_id = none) :
    (broadcast_event now room_id t d st).1 = .error (.NotFound "Room not found") ∧
    ((broadcast_event now room_id t d st).2).rooms = st.rooms ∧
    ((broadcast_event now room_id t d st).2).global_event_id =
      (st.global_event_id + 1) % U64_MOD :=
  broadcast_event_no_room now room_id t d st h

/-- C8 witness: broadcasting to `"nope"` in the empty storage errors,
leaves the rooms map unchanged, and advances the counter. -/
theorem C8_broadcast_unknown_room_witness :
    (broadcast_event 3 "nope" SseEventType.PeerJoined "x" emptyStorage).1 =
      .error (.NotFound "Room not found") ∧
    ((broadcast_event 3 "nope" SseEventType.PeerJoined "x" emptyStorage).2).rooms =
      emptyStorage.rooms ∧
    ((broadcast_event 3 "nope" SseEventType.PeerJoined "x" emptyStorage).2).global_event_id =
      (emptyStorage.global_event_id + 1) % U64_MOD :=
  C8_broadcast_unknown_room 3 "nope" .PeerJoined "x" emptyStorage rfl

/-! ### C7 — the refresh overwrites the cache only on (partial) success -/

/-- When the provider fails on every key, the accumulation loop of
`fetch_all_real_market_data` adds nothing. -/
theorem foldl_provider_none (provider : String → Option Stock) :
    ∀ (l : List String), (∀ s ∈ l, provider s = none) →
      ∀ acc : List (String × Stock),
        l.foldl (fun acc stock_id =>
          match provider stock_id with
          | some stock_data => acc ++ [(stock_id, stock_data)]
          | none => acc) acc = acc := by
  intro l
  induction l with
  | nil => intro h acc; rfl
  | cons s ss ih =>
      intro h acc
      have hs : provider s = none := h s (List.mem_cons_self s ss)
      simp only [List.foldl_cons, hs]
      exact ih (fun x hx => h x (List.mem_cons_of_mem s hx)) acc

/-- The cache-miss precondition of the fetch path of
`get_market_summary_async`: no cached value, or one at least
`STOCK_CACHE_DURATION` old. -/
def summary_cache_invalid (now : Nat) (gs : StockSseState) : Prop :=
  ∀ data cached_at, gs.market_summary_cache = some (data, cached_at) →
    ¬ (now - cached_at < STOCK_CACHE_DURATION)

/-- C7 (confirmed): on the fetch path, if every tracked key fails the
refresh returns the error and leaves the prior global cache (if any)
intact; if the fetch succeeds (which requires at least one key to have
succeeded — the result is nonempty) the global cache is overwritten
wholesale with `(data, now)`. -/
theorem C7_refresh_overwrites_only_on_success (now : Nat)
    (provider : String → Option Stock) (gs : StockSseState)
    (hinv : summary_cache_invalid now gs) :
    ((∀ s ∈ popular_stocks, provider s = none) →
      fetch_all_real_market_data provider =
        .error (.InternalError "Failed to fetch any real stock data") ∧
      (get_market_summary_async now provider gs).1 =
        .error (.InternalError "Failed to fetch any real stock data") ∧
      ((get_market_summary_async now provider gs).2).market_summary_cache =
        gs.market_summary_cache) ∧
    (∀ data, fetch_all_real_market_data provider = .ok data →
      data ≠ [] ∧
      (get_market_summary_async now provider gs).1 = .ok data ∧
      ((get_market_summary_async now provider gs).2).market_summary_cache =
        some (data, now)) := by
  constructor
  · intro hall
    have herr : fetch_all_real_market_data provider =
        .error (.InternalError "Failed to fetch any real stock data") := by
      unfold fetch_all_real_market_data
      rw [foldl_provider_none provider popular_stocks hall []]
      rfl
    refine ⟨herr, ?_, ?_⟩ <;>
      cases hgs : gs.market_summary_cache with
      | none => simp [get_market_summary_async, update_user_activity, hgs, herr]
      | some p =>
          obtain ⟨data0, t0⟩ := p
          have hnv := hinv data0 t0 hgs
          simp [get_market_summary_async, update_user_activity, hgs, hnv, herr]
  · intro data hok
    have hne : data ≠ [] := by
      simp only [fetch_all_real_market_data] at hok
      split at hok
      · cases hok
      · rename_i hE
        injection hok with hok
        subst hok
        simpa using hE
    refine ⟨hne, ?_, ?_⟩ <;>
      cases hgs : gs.market_summary_cache with
      | none =>
          simp [get_market_summary_async, update_user_activity,
            start_periodic_refresh, hgs, hok]
      | some p =>
          obtain ⟨data0, t0⟩ := p
          have hnv := hinv data0 t0 hgs
          simp [get_market_summary_async, update_user_activity,
            start_periodic_refresh, hgs, hnv, hok]

/-- A provider that fails on every key. -/
def c7_provider_none : String → Option Stock := fun _ => none

/-- A provider that succeeds on every key. -/
def c7_provider_ok : String → Option Stock := fun s =>
  some { id := s, name := s, symbol := s, news := [], last_update := 0 }

/-- A scheduler state with no cached summary. -/
def c7_gs : StockSseState :=
  { market_summary_cache := none, last_user_activity := 0, refresh_timer := false }

/-- The aggregate `c7_provider_ok` produces for every tracked key. -/
def c7_data : List (String × Stock) :=
  popular_stocks.map fun s =>
    (s, { id := s, name := s, symbol := s, news := [], last_update := 0 })

/-- C7 witness: with no cache, the all-fail provider leaves the cache
`none` and errors; the all-succeed provider overwrites it with
`(c7_data, now)`. -/
theorem C7_refresh_overwrites_only_on_success_witness :
    (get_market_summary_async 5 c7_provider_none c7_gs).1 =
      .error (.InternalError "Failed to fetch any real stock data") ∧
    ((get_market_summary_async 5 c7_provider_none c7_gs).2).market_summary_cache =
      c7_gs.market_summary_cache ∧
    (get_market_summary_async 5 c7_provider_ok c7_gs).1 = .ok c7_data ∧
    ((get_market_summary_async 5 c7_provider_ok c7_gs).2).market_summary_cache =
      some (c7_data, 5) := by
  have hinv : summary_cache_invalid 5 c7_gs := by
    intro d t h
    simp [c7_gs] at h
  have h1 := (C7_refresh_overwrites_only_on_success 5 c7_provider_none c7_gs hinv).1
    (fun s _ => rfl)
  have h2 := (C7_refresh_overwrites_only_on_success 5 c7_provider_ok c7_gs hinv).2
    c7_data rfl
  exact ⟨h1.2.1, h1.2.2, h2.2.1, h2.2.2⟩

/-! ### C9 — the activity-gated scheduler -/

/-- C9 (confirmed): a tick with no recent activity performs no refresh
and cancels the timer (Idle); a tick with recent activity performs the
provider-backed refresh (overwriting the cache on success, timer left
running); and a summary read that returns `ok` always leaves the
periodic timer running, restarting it from Idle. -/
theorem C9_scheduler_self_stop :
    (∀ now provider gs, has_recent_user_activity now gs = false →
      periodic_tick now provider gs = { gs with refresh_timer := false }) ∧
    (∀ now provider gs data, has_recent_user_activity now gs = true →
      fetch_all_real_market_data provider = .ok data →
      periodic_tick now provider gs =
        { gs with market_summary_cache := some (data, now) }) ∧
    (∀ now provider gs r gs', gs.refresh_timer = false →
      get_market_summary_async now provider gs = (r, gs') →
      (∃ v, r = .ok v) → gs'.refresh_timer = true) := by
  refine ⟨?_, ?_, ?_⟩
  · intro now provider gs h
    simp [periodic_tick, h]
  · intro now provider gs data h hok
    simp [periodic_tick, h, hok]
  · intro now provider gs r gs' htimer heq hex
    obtain ⟨v, rfl⟩ := hex
    cases hgs : gs.market_summary_cache with
    | none =>
        cases hfetch : fetch_all_real_market_data provider with
        | error e =>
            simp [get_market_summary_async, update_user_activity, hgs, hfetch] at heq
        | ok data =>
            simp [get_market_summary_async, update_user_activity,
              start_periodic_refresh, hgs, hfetch] at heq
            rw [← heq.2]
    | some p =>
        obtain ⟨data0, t0⟩ := p
        by_cases hv : now - t0 < STOCK_CACHE_DURATION
        · simp [get_market_summary_async, update_user_activity,
            start_periodic_refresh, hgs, hv] at heq
          rw [← heq.2]
        · cases hfetch : fetch_all_real_market_data provider with
          | error e =>
              simp [get_market_summary_async, update_user_activity,
                hgs, hv, hfetch] at heq
          | ok data =>
              simp [get_market_summary_async, update_user_activity,
                start_periodic_refresh, hgs, hv, hfetch] at heq
              rw [← heq.2]

/-- A stale scheduler state: no activity ever recorded, timer running. -/
def c9_gs_stale : StockSseState :=
  { market_summary_cache := none, last_user_activity := 0, refresh_timer := true }

/-- An active scheduler state: activity at time 5, timer running. -/
def c9_gs_active : StockSseState :=
  { market_summary_cache := none, last_user_activity := 5, refresh_timer := true }

/-- An Idle scheduler state with a fresh cached summary. -/
def c9_gs_idle : StockSseState :=
  { market_summary_cache := some (c6_data, 0), last_user_activity := 1
    refresh_timer := false }

/-- C9 witness: the stale tick only cancels the timer; the active tick
refreshes the cache through the provider; a successful summary read from
Idle leaves the timer running. -/
theorem C9_scheduler_self_stop_witness :
    periodic_tick 7 c7_provider_none c9_gs_stale =
      { c9_gs_stale with refresh_timer := false } ∧
    periodic_tick 5 c7_provider_ok c9_gs_active =
      { c9_gs_active with market_summary_cache := some (c7_data, 5) } ∧
    ((get_market_summary_async 3 c7_provider_none c9_gs_idle).2).refresh_timer = true := by
  refine ⟨C9_scheduler_self_stop.1 7 c7_provider_none c9_gs_stale (by decide),
    C9_scheduler_self_stop.2.1 5 c7_provider_ok c9_gs_active c7_data (by decide) rfl,
    C9_scheduler_self_stop.2.2 3 c7_provider_none c9_gs_idle
      (get_market_summary_async 3 c7_provider_none c9_gs_idle).1
      (get_market_summary_async 3 c7_provider_none c9_gs_idle).2
      rfl rfl ⟨c6_data, rfl⟩⟩

end Dhaniverse
